/-
Verification development for the sniper-gold-bot pivot/breakout core.

The Python source is shallowly embedded: prices and durations are exact
rationals (ℚ), timestamps are minutes on a rational clock passed explicitly,
and each stateful method becomes a pure function from state to state.
Python's `round(x, n)` (round-half-even) is modelled by `rhe` / `round2` /
`round1` below.
-/
import Mathlib

namespace SniperGold

/-- Round-half-even to the nearest integer, the rounding used by Python's
built-in `round`.  On a tie (fractional part exactly 1/2) the even
neighbour is chosen; otherwise it agrees with ordinary rounding. -/
def rhe (x : ℚ) : ℤ :=
  if x - ⌊x⌋ = 1 / 2 then (if ⌊x⌋ % 2 = 0 then ⌊x⌋ else ⌊x⌋ + 1) else round x

/-- `round(x, 2)` from Python: round to 2 decimal places, half to even. -/
def round2 (q : ℚ) : ℚ := (rhe (100 * q) : ℚ) / 100

/-- `round(x, 1)` from Python: round to 1 decimal place, half to even. -/
def round1 (q : ℚ) : ℚ := (rhe (10 * q) : ℚ) / 10

lemma le_rhe (x : ℚ) : x - 1 / 2 ≤ (rhe x : ℚ) := by
  unfold rhe
  split_ifs with h h2
  · linarith
  · push_cast
    linarith
  · have habs := abs_sub_round x
    rw [abs_le] at habs
    linarith [habs.1]

lemma rhe_le (x : ℚ) : (rhe x : ℚ) ≤ x + 1 / 2 := by
  unfold rhe
  split_ifs with h h2
  · linarith
  · push_cast
    linarith
  · have habs := abs_sub_round x
    rw [abs_le] at habs
    linarith [habs.2]

lemma rhe_ge_of_lt (P : ℤ) {y : ℚ} (h : (P : ℚ) - 1 / 2 < y) : P ≤ rhe y := by
  have h1 := le_rhe y
  have h2 : (P : ℚ) - 1 < (rhe y : ℚ) := by linarith
  have h3 : P - 1 < rhe y := by exact_mod_cast h2
  omega

lemma rhe_le_of_lt (P : ℤ) {y : ℚ} (h : y < (P : ℚ) + 1 / 2) : rhe y ≤ P := by
  have h1 := rhe_le y
  have h2 : (rhe y : ℚ) < (P : ℚ) + 1 := by linarith
  have h3 : rhe y < P + 1 := by exact_mod_cast h2
  omega

lemma rhe_int_add_half (P : ℤ) :
    rhe ((P : ℚ) + 1 / 2) = if P % 2 = 0 then P else P + 1 := by
  have hf : ⌊(P : ℚ) + 1 / 2⌋ = P := by
    rw [Int.floor_int_add]
    norm_num
  unfold rhe
  rw [hf, if_pos (by ring : (P : ℚ) + 1 / 2 - (P : ℤ) = 1 / 2)]

lemma rhe_int_sub_half (P : ℤ) :
    rhe ((P : ℚ) - 1 / 2) = if P % 2 = 0 then P else P - 1 := by
  have hf : ⌊(P : ℚ) - 1 / 2⌋ = P - 1 := by
    have harg : (P : ℚ) - 1 / 2 = ((P - 1 : ℤ) : ℚ) + 1 / 2 := by push_cast; ring
    rw [harg, Int.floor_int_add]
    norm_num
  unfold rhe
  rw [hf, if_pos (by push_cast; ring : (P : ℚ) - 1 / 2 - ((P - 1 : ℤ) : ℚ) = 1 / 2)]
  split_ifs <;> omega

/-- If `l ≤ x` then rounding `2·rhe x − l` never falls below `rhe x`.
This is the rational core of the `Pivot ≤ R1` inequality, where the source
computes `R1 = round(2*pivot - low, 2)` from the already-rounded pivot. -/
lemma rhe_ge_pivot {x l : ℚ} (h : l ≤ x) :
    rhe x ≤ rhe (2 * (rhe x : ℚ) - l) := by
  have hub := rhe_le x
  have hlb := le_rhe x
  have hy : (rhe x : ℚ) - 1 / 2 ≤ 2 * (rhe x : ℚ) - l := by linarith
  rcases eq_or_lt_of_le hy with heq | hlt
  · have hl : l = (rhe x : ℚ) + 1 / 2 := by linarith
    have hx : x = (rhe x : ℚ) + 1 / 2 := le_antisymm (by linarith) (by linarith)
    have hself : rhe ((rhe x : ℚ) + 1 / 2) = rhe x := by rw [← hx]
    have hPeven : rhe x % 2 = 0 := by
      by_contra hodd
      rw [rhe_int_add_half (rhe x), if_neg hodd] at hself
      omega
    rw [← heq, rhe_int_sub_half (rhe x), if_pos hPeven]
  · exact rhe_ge_of_lt (rhe x) hlt

/-- If `x ≤ h` then rounding `2·rhe x − h` never exceeds `rhe x`: the
rational core of the `S1 ≤ Pivot` inequality. -/
lemma rhe_le_pivot {x h : ℚ} (hxh : x ≤ h) :
    rhe (2 * (rhe x : ℚ) - h) ≤ rhe x := by
  have hub := rhe_le x
  have hlb := le_rhe x
  have hy : 2 * (rhe x : ℚ) - h ≤ (rhe x : ℚ) + 1 / 2 := by linarith
  rcases eq_or_lt_of_le hy with heq | hlt
  · have hh : h = (rhe x : ℚ) - 1 / 2 := by linarith
    have hx : x = (rhe x : ℚ) - 1 / 2 := le_antisymm (by linarith) (by linarith)
    have hself : rhe ((rhe x : ℚ) - 1 / 2) = rhe x := by rw [← hx]
    have hPeven : rhe x % 2 = 0 := by
      by_contra hodd
      rw [rhe_int_sub_half (rhe x), if_neg hodd] at hself
      omega
    rw [heq, rhe_int_add_half (rhe x), if_pos hPeven]
  · exact rhe_le_of_lt (rhe x) hlt

/-! ## Pivot calculator (`PivotSessionManager._calculate_pivot_points`) -/

/-- The three pivot-set profiles (`PivotType` in `pivot_state_manager.py`). -/
inductive PivotType
  | CLASSIC
  | ASIA
  | EUROPE
deriving DecidableEq, Repr

/-- `PivotType.value` — the string payload of the Python enum. -/
def PivotType.value : PivotType → String
  | .CLASSIC => "classique"
  | .ASIA => "asie"
  | .EUROPE => "europe"

/-- One computed level: the dicts
`{"valeur": ..., "type": ..., "nom": ..., "pivot_type": ...}` built by
`_calculate_pivot_points`. -/
structure Threshold where
  valeur : ℚ
  kind : String
  nom : String
  pivot_type : String
deriving DecidableEq, Repr

/-- The OHLC input dict of `_calculate_pivot_points`.  A `none` field models
a missing key, which in Python raises `KeyError` inside the method's
`try` block. -/
structure SessionOHLC where
  high : Option ℚ
  low : Option ℚ
  close : Option ℚ
deriving DecidableEq, Repr

/-- `PivotSessionManager._calculate_pivot_points` (pivot_session_manager.py
170–208): the classic floor-trader formulas, each level rounded to 2
decimals, with the pivot rounded first and the other levels derived from
the rounded pivot.  A missing field raises `KeyError`, which the method's
`except` clause turns into an empty list. -/
def calculate_pivot_points (data : SessionOHLC) (pt : PivotType) : List Threshold :=
  match data.high, data.low, data.close with
  | some high, some low, some close =>
    let pivot := round2 ((high + low + close) / 3)
    let r1 := round2 (2 * pivot - low)
    let r2 := round2 (pivot + (high - low))
    let r3 := round2 (high + 2 * (pivot - low))
    let s1 := round2 (2 * pivot - high)
    let s2 := round2 (pivot - (high - low))
    let s3 := round2 (low - 2 * (high - pivot))
    let sfx := "_" ++ pt.value
    [⟨r3, "résistance", "R3" ++ sfx, pt.value⟩,
     ⟨r2, "résistance", "R2" ++ sfx, pt.value⟩,
     ⟨r1, "résistance", "R1" ++ sfx, pt.value⟩,
     ⟨pivot, "pivot", "Pivot" ++ sfx, pt.value⟩,
     ⟨s1, "support", "S1" ++ sfx, pt.value⟩,
     ⟨s2, "support", "S2" ++ sfx, pt.value⟩,
     ⟨s3, "support", "S3" ++ sfx, pt.value⟩]
  | _, _, _ => []

/-- `PivotSessionManager.calculate_session_pivots` (pivot_session_manager.py
52–83), with the data fetch already resolved: on `none` (no data, or an
API error) nothing is returned and the cache is untouched; otherwise the
computed list — even an empty one — is cached for the profile and
returned. -/
def calculate_session_pivots (cache : PivotType → Option (List Threshold))
    (pt : PivotType) (data : Option SessionOHLC) :
    Option (List Threshold) × (PivotType → Option (List Threshold)) :=
  match data with
  | none => (none, cache)
  | some d =>
    let pivots := calculate_pivot_points d pt
    (some pivots, fun q => if q = pt then some pivots else cache q)

/-- Python's `str.startswith`, evaluated on the character lists (Lean's own
`String.startsWith` goes through byte positions and does not reduce in the
kernel). -/
def startswith (s pre : String) : Bool := pre.data.isPrefixOf s.data

/-! ## Pivot/breakout state store (`PivotStateManager`) -/

/-- `BreakoutState` in `pivot_state_manager.py`. -/
inductive BreakoutState
  | NONE
  | TENSION
  | PARTIAL
  | VALIDATED
  | INVALIDATED
  | NEUTRAL
deriving DecidableEq, Repr

/-- The string payload of the Python `BreakoutState` enum. -/
def BreakoutState.value : BreakoutState → String
  | .NONE => "aucune"
  | .TENSION => "tension"
  | .PARTIAL => "cassure_partielle"
  | .VALIDATED => "cassure_validee"
  | .INVALIDATED => "cassure_invalidee"
  | .NEUTRAL => "neutre"

/-- One entry of the `touches_tension` list: a timestamped touch of a named
level.  Timestamps are minutes on a rational clock. -/
structure Touch where
  timestamp : ℚ
  threshold : String
  price : ℚ
deriving DecidableEq, Repr

/-- One entry of the `historique` list.  The free-form Python dict payload is
modelled as a string association list. -/
structure HistEvent where
  timestamp : ℚ
  etype : String
  data : List (String × String)
deriving DecidableEq, Repr

/-- A per-level reliability record of `seuil_stats`. -/
structure SeuilStats where
  tentatives : ℕ
  validees : ℕ
  invalidees : ℕ
  score : ℚ
  last_update : Option ℚ
deriving DecidableEq, Repr

/-- A fresh reliability record, as created lazily by
`track_breakout_attempt` and returned by `get_threshold_reliability` for an
unknown level. -/
def emptyStats : SeuilStats := ⟨0, 0, 0, 0, none⟩

/-- The persisted state dict of `PivotStateManager`.  `date` is a UTC day
index; the auxiliary scalar keys merged in by `set_breakout_state` details
(`seuil_en_cours`, `prix_cassure`, …) are recorded only in the history
payloads here, since no verified claim reads them back. -/
structure PivotState where
  pivot_actif : PivotType
  etat_cassure : BreakoutState
  date : ℤ
  switches_count : ℕ
  touches_tension : List Touch
  historique : List HistEvent
  seuil_stats : List (String × SeuilStats)
  in_range_since : Option ℚ
  last_range_check : Option ℚ
  timestamp_premier_touch_r1 : Option ℚ
deriving DecidableEq, Repr

/-- Replace-or-insert into a string-keyed association list (a Python dict
assignment). -/
def setAssoc {α : Type} : List (String × α) → String → α → List (String × α)
  | [], k, v => [(k, v)]
  | (k', v') :: rest, k, v =>
    if k' = k then (k, v) :: rest else (k', v') :: setAssoc rest k v

/-- Config constants from `config.py`. -/
def MAX_DAILY_SWITCHES : ℕ := 2

def TENSION_WINDOW : ℚ := 30

def TENSION_TOUCHES : ℕ := 3

def BREAKOUT_AMPLITUDE : ℚ := 2

def SPEED_THRESHOLD : ℚ := 3

def STABILIZATION_TIME : ℚ := 15

def STABILIZATION_RANGE : ℚ := 2

/-- `PivotStateManager._add_to_history` (248–260): append the event, then if
the log exceeds 100 entries keep only the last 50. -/
def add_to_history (now : ℚ) (st : PivotState) (etype : String)
    (data : List (String × String)) : PivotState :=
  let hist := st.historique ++ [⟨now, etype, data⟩]
  { st with historique := if 100 < hist.length then hist.drop (hist.length - 50) else hist }

/-- `PivotStateManager._reset_daily_state` (234–246). -/
def reset_daily_state (today : ℤ) (st : PivotState) : PivotState :=
  { st with
    date := today
    switches_count := 0
    pivot_actif := .CLASSIC
    etat_cassure := .NONE
    touches_tension := []
    historique := [] }

/-- `PivotStateManager.can_switch_pivot` (122–130): daily rollover, then
compare the switch counter against `MAX_DAILY_SWITCHES`. -/
def can_switch_pivot (today : ℤ) (st : PivotState) : Bool × PivotState :=
  let st := if st.date ≠ today then reset_daily_state today st else st
  (st.switches_count < MAX_DAILY_SWITCHES, st)

/-- `PivotStateManager.switch_to_pivot` (132–152). -/
def switch_to_pivot (now : ℚ) (today : ℤ) (st : PivotState) (new_pivot : PivotType)
    (reason : String) : Bool × PivotState :=
  let p := can_switch_pivot today st
  if !p.1 then (false, p.2)
  else
    let st := p.2
    let old := st.pivot_actif
    let st := { st with
      pivot_actif := new_pivot
      switches_count := st.switches_count + 1
      etat_cassure := .NONE }
    (true, add_to_history now st "pivot_switch"
      [("from", old.value), ("to", new_pivot.value), ("reason", reason)])

/-- `PivotStateManager.set_breakout_state` (154–170); the details dict is
recorded in the history payload. -/
def set_breakout_state (now : ℚ) (st : PivotState) (s : BreakoutState)
    (details : List (String × String)) : PivotState :=
  let old := st.etat_cassure
  let st := { st with etat_cassure := s }
  add_to_history now st "breakout_state" ([("from", old.value), ("to", s.value)] ++ details)

/-- `PivotStateManager.start_tension_tracking` (172–205): prune touches older
than the 30-minute window, append the new touch, and escalate to TENSION
once the same level has 3 retained touches. -/
def start_tension_tracking (now : ℚ) (st : PivotState) (threshold_name : String)
    (price : ℚ) : PivotState :=
  let cutoff := now - TENSION_WINDOW
  let touches := (st.touches_tension.filter fun t => cutoff < t.timestamp) ++
    [⟨now, threshold_name, price⟩]
  let st := { st with touches_tension := touches }
  let recent := touches.filter fun t => t.threshold = threshold_name
  if TENSION_TOUCHES ≤ recent.length then
    let st := set_breakout_state now st .TENSION [("seuil_en_cours", threshold_name)]
    add_to_history now st "tension_detected" [("threshold", threshold_name)]
  else st

/-- `PivotStateManager.check_speed_breakout` (213–232). -/
def check_speed_breakout (now : ℚ) (st : PivotState) (r2_price current_price : ℚ) :
    Bool × PivotState :=
  match st.timestamp_premier_touch_r1 with
  | none => (false, st)
  | some start =>
    let time_diff := now - start
    if r2_price + BREAKOUT_AMPLITUDE < current_price then
      let is_fast := decide (time_diff ≤ SPEED_THRESHOLD)
      (is_fast, add_to_history now st "speed_check" [("is_fast", toString is_fast)])
    else (false, st)

/-- `PivotStateManager._is_recent_event` (274–278). -/
def is_recent_event (now : ℚ) (timestamp : ℚ) (hours : ℚ) : Bool :=
  now - hours * 60 < timestamp

/-- `PivotStateManager.should_go_neutral` (262–272): at least two
INVALIDATED transitions recorded in the trailing two hours. -/
def should_go_neutral (now : ℚ) (st : PivotState) : Bool :=
  2 ≤ (st.historique.filter fun e =>
    e.etype = "breakout_state" ∧ e.data.lookup "to" = some BreakoutState.INVALIDATED.value ∧
      is_recent_event now e.timestamp 2).length

/-- `PivotStateManager.track_breakout_attempt` (280–302). -/
def track_breakout_attempt (now : ℚ) (st : PivotState) (threshold_name : String) :
    PivotState :=
  let stats := (st.seuil_stats.lookup threshold_name).getD emptyStats
  let stats := { stats with tentatives := stats.tentatives + 1, last_update := some now }
  let st := { st with seuil_stats := setAssoc st.seuil_stats threshold_name stats }
  add_to_history now st "breakout_attempt" [("threshold", threshold_name)]

/-- `PivotStateManager.track_breakout_result` (304–332): a no-op (bar a log
line) for an untracked level; otherwise bump the validated/invalidated
counter and recompute the score as `round(validated/attempts*100, 1)`. -/
def track_breakout_result (now : ℚ) (st : PivotState) (threshold_name : String)
    (success : Bool) : PivotState :=
  match st.seuil_stats.lookup threshold_name with
  | none => st
  | some stats =>
    let stats := if success then { stats with validees := stats.validees + 1 }
      else { stats with invalidees := stats.invalidees + 1 }
    let stats := if 0 < stats.tentatives then
        { stats with score := round1 ((stats.validees : ℚ) / (stats.tentatives : ℚ) * 100) }
      else stats
    let stats := { stats with last_update := some now }
    let st := { st with seuil_stats := setAssoc st.seuil_stats threshold_name stats }
    add_to_history now st "breakout_result" [("threshold", threshold_name)]

/-- `PivotStateManager.get_threshold_reliability` (334–345). -/
def get_threshold_reliability (st : PivotState) (threshold_name : String) : SeuilStats :=
  (st.seuil_stats.lookup threshold_name).getD emptyStats

/-- `PivotStateManager.is_threshold_reliable` (347–356). -/
def is_threshold_reliable (st : PivotState) (threshold_name : String)
    (min_attempts : ℕ := 3) (min_score : ℚ := 50) : Bool :=
  let stats := get_threshold_reliability st threshold_name
  if stats.tentatives < min_attempts then true else min_score ≤ stats.score

/-- Python truthiness of an optional float: `None` and `0.0` are falsy. -/
def truthy (x : Option ℚ) : Bool :=
  match x with
  | none => false
  | some v => v ≠ 0

/-- `PivotStateManager.check_range_return` (358–392).  Returns the flag and
the updated state; note that on the `True` branch the source neither resets
nor refreshes `in_range_since`. -/
def check_range_return (now : ℚ) (st : PivotState) (current_price : ℚ)
    (r1_value s1_value : Option ℚ) : Bool × PivotState :=
  if !truthy r1_value || !truthy s1_value then (false, st)
  else
    let r1 := r1_value.getD 0
    let s1 := s1_value.getD 0
    if s1 ≤ current_price ∧ current_price ≤ r1 then
      match st.in_range_since with
      | none => (false, { st with in_range_since := some now, last_range_check := some now })
      | some since => if 30 ≤ now - since then (true, st) else (false, st)
    else
      (false, { st with in_range_since := none, last_range_check := some now })

/-! ## Session manager materiality check (`PivotSessionManager`) -/

/-- The partial dict built by `PivotSessionManager._extract_key_levels`
(247–257): each field is `none` until a matching level name is seen; a
later match overwrites an earlier one. -/
structure KeyLevelsOpt where
  R2 : Option ℚ
  S2 : Option ℚ
  Pivot : Option ℚ
deriving DecidableEq, Repr

/-- `PivotSessionManager._extract_key_levels` (247–257). -/
def extract_key_levels (pivots : List Threshold) : KeyLevelsOpt :=
  pivots.foldl (fun acc p =>
    if startswith p.nom "R2" then { acc with R2 := some p.valeur }
    else if startswith p.nom "S2" then { acc with S2 := some p.valeur }
    else if startswith p.nom "Pivot" then { acc with Pivot := some p.valeur }
    else acc) ⟨none, none, none⟩

/-- Python truthiness of an optional level list: `None` and `[]` are falsy. -/
def listTruthy (x : Option (List Threshold)) : Bool :=
  match x with
  | none => false
  | some l => !l.isEmpty

/-- `PivotSessionManager._is_range_included` (259–275): the new `[S2, R2]`
range is strictly more than 20% narrower than the current one AND its
center sits within 30% of the current full range width of the current
center. -/
def is_range_included (newR2 newS2 curR2 curS2 : ℚ) : Bool :=
  let new_range := newR2 - newS2
  let current_range := curR2 - curS2
  if new_range < current_range * 0.8 then
    let new_center := (newR2 + newS2) / 2
    let current_center := (curR2 + curS2) / 2
    let center_diff := |new_center - current_center|
    decide (center_diff < current_range * 0.3)
  else false

/-- `PivotSessionManager.is_pivot_switch_meaningful` (218–245).  The reason
strings are kept without their interpolated numbers; a `none` result models
the uncaught `KeyError` raised when an extracted dict is missing one of
R2/S2/Pivot. -/
def is_pivot_switch_meaningful (cache : PivotType → Option (List Threshold))
    (new_pivot_type current_pivot_type : PivotType) : Option (Bool × String) :=
  let new_pivots := cache new_pivot_type
  let current_pivots := cache current_pivot_type
  if !listTruthy new_pivots || !listTruthy current_pivots then
    some (false, "Pivots manquants pour comparaison")
  else
    let nl := extract_key_levels (new_pivots.getD [])
    let cl := extract_key_levels (current_pivots.getD [])
    match nl.R2, nl.S2, nl.Pivot, cl.R2, cl.S2, cl.Pivot with
    | some nr2, some ns2, some np, some cr2, some cs2, some cp =>
      let r2_diff := |nr2 - cr2|
      let s2_diff := |ns2 - cs2|
      let pivot_diff := |np - cp|
      if max (max r2_diff s2_diff) pivot_diff < 5 then
        some (false, "Différences insuffisantes")
      else if is_range_included nr2 ns2 cr2 cs2 then
        some (false, "Nouveaux pivots inclus dans le range actuel")
      else
        some (true, "Bascule justifiée")
    | _, _, _, _, _, _ => none

/-! ## Temporal context (`TemporalContextManager`) -/

/-- One entry of `TemporalContextManager.session_profiles`. -/
structure SessionProfile where
  activity : String
  stabilization_time : ℚ
  min_range_session : ℚ
  volatility_tolerance : ℚ
  speed_multiplier : ℚ
deriving DecidableEq, Repr

/-- `TemporalContextManager._get_current_session_name` (56–65). -/
def get_current_session_name (hour : ℕ) : String :=
  if hour < 4 then "asia" else if 4 ≤ hour ∧ hour < 13 then "europe" else "us"

/-- `TemporalContextManager.session_profiles` (24–49). -/
def session_profiles (name : String) : SessionProfile :=
  if name = "asia" then ⟨"low", 20, 6, 0.8, 1.5⟩
  else if name = "europe" then ⟨"medium", 15, 8, 1, 1⟩
  else if name = "us" then ⟨"high", 10, 12, 1.2, 0.7⟩
  else ⟨"medium", 15, 8, 1, 1⟩

/-- `TemporalContextManager.get_current_session_profile` (51–54). -/
def get_current_session_profile (hour : ℕ) : SessionProfile :=
  session_profiles (get_current_session_name hour)

/-- `TemporalContextManager.get_adapted_volatility_threshold` (72–75). -/
def get_adapted_volatility_threshold (hour : ℕ) : ℚ :=
  (get_current_session_profile hour).volatility_tolerance

/-- `TemporalContextManager.get_adapted_stabilization_time` (67–70). -/
def get_adapted_stabilization_time (hour : ℕ) : ℚ :=
  (get_current_session_profile hour).stabilization_time

/-- `TemporalContextManager.get_breakout_confidence_modifier` (134–159). -/
def get_breakout_confidence_modifier (hour : ℕ) : ℚ :=
  let profile := get_current_session_profile hour
  let base := (1 : ℚ)
  let base := if hour = 23 ∨ hour = 0 ∨ hour = 1 ∨ hour = 22 then base * 0.8
    else if hour = 8 ∨ hour = 9 ∨ hour = 10 ∨ hour = 14 ∨ hour = 15 ∨ hour = 16 then base * 1.2
    else base
  let base := if profile.activity = "low" then base * 0.9
    else if profile.activity = "high" then base * 1.1
    else base
  round2 base

/-! ## Breakout validator (`BreakoutValidator`, richer multi-pivot version)

The validator owns two in-memory buffers next to the durable store; a
`World` pairs the durable manager state with them.  `hour` is the current
UTC hour consumed by the temporal context. -/

/-- One element of the validator's `price_history` buffer. -/
structure PricePoint where
  price : ℚ
  timestamp : ℚ
deriving DecidableEq, Repr

/-- The breakout dict returned by
`_check_extreme_breakouts_with_reliability` (217–255); the attached
reliability snapshot is not read back by any verified claim and is
elided. -/
structure BreakoutInfo where
  btype : String
  threshold : Threshold
  amplitude : ℚ
  direction : String
deriving DecidableEq, Repr

/-- One stabilization tracker (`_start_stabilization_tracking`, 455–463). -/
structure StabTracker where
  start_time : ℚ
  start_price : ℚ
  breakout_info : BreakoutInfo
  price_points : List PricePoint
deriving DecidableEq, Repr

/-- The validator's own in-memory state. -/
structure ValidatorState where
  price_history : List PricePoint
  stabilization_tracker : List (String × StabTracker)
deriving DecidableEq, Repr

/-- Durable manager state plus the validator buffers. -/
structure World where
  mgr : PivotState
  val : ValidatorState
deriving DecidableEq, Repr

/-- An emitted signal dict.  The human-readable `type` strings are kept
without their interpolated prices/amplitudes. -/
structure Signal where
  stype : String
  direction : String
  status : String
  threshold_name : Option String := none
  broken_threshold : Option ℚ := none
  amplitude : Option ℚ := none
  is_fast : Option Bool := none
  distance : Option ℚ := none
  confidence_modifier : Option ℚ := none
deriving DecidableEq, Repr

/-- `max` of a nonempty Python list (`max(recent_prices)`); 0 on `[]`. -/
def pyMax (l : List ℚ) : ℚ :=
  match l with
  | [] => 0
  | h :: t => t.foldl max h

/-- `min` of a nonempty Python list; 0 on `[]`. -/
def pyMin (l : List ℚ) : ℚ :=
  match l with
  | [] => 0
  | h :: t => t.foldl min h

/-- `BreakoutValidator.add_price_point` (277–292): append the point, keep
only the last 30 minutes. -/
def add_price_point (now : ℚ) (v : ValidatorState) (price : ℚ) : ValidatorState :=
  let ph := v.price_history ++ [⟨price, now⟩]
  { v with price_history := ph.filter fun p => now - 30 < p.timestamp }

/-- `BreakoutValidator.check_volatility`, session-adapted version (159–186):
needs at least 10 buffered points and at least 5 within the trailing hour,
then compares `(max-min)/average*100` against the adapted threshold. -/
def check_volatility (now : ℚ) (hour : ℕ) (v : ValidatorState) : Bool :=
  if v.price_history.length < 10 then false
  else
    let volatility_threshold := get_adapted_volatility_threshold hour
    let recent := ((v.price_history.filter fun p => now - 60 < p.timestamp).map
      fun p => p.price)
    if recent.length < 5 then false
    else
      let price_range := pyMax recent - pyMin recent
      let avg_price := recent.sum / recent.length
      decide (volatility_threshold < price_range / avg_price * 100)

/-- The `for threshold in thresholds` scans assigning `r1_value` /
`s1_value` by name (`_check_range_return` 190–197,
`_check_breakout_invalidation` 430–438): the last matching level wins. -/
def find_level_value (pfx : String) (thresholds : List Threshold) : Option ℚ :=
  thresholds.foldl (fun acc t => if startswith t.nom pfx then some t.valeur else acc) none

/-- `BreakoutValidator._check_range_return` (188–215): delegate to the state
store; on a sustained return force phase NEUTRAL and emit the
revalidate-pivot signal. -/
def check_range_return_validator (now : ℚ) (w : World) (current_price : ℚ)
    (thresholds : List Threshold) : Option Signal × World :=
  let r1_value := find_level_value "R1" thresholds
  let s1_value := find_level_value "S1" thresholds
  let res := check_range_return now w.mgr current_price r1_value s1_value
  if res.1 then
    let mgr := set_breakout_state now res.2 .NEUTRAL
      [("raison", "retour_durable_range"), ("duree_minutes", "30"),
       ("suggestion", "revalidation_pivot_precedent")]
    (some { stype := "🔄 Retour durable en range S1-R1 - Revalidation pivot recommandée",
            direction := "range_return", status := "semi_neutral" },
     { w with mgr := mgr })
  else (none, { w with mgr := res.2 })

/-- `BreakoutValidator._check_extreme_breakouts_with_reliability` (217–255):
skip unreliable levels, return the first R2 level exceeded by more than the
breakout amplitude (bullish) or S2 level undercut by more than it
(bearish), recording the attempt. -/
def check_extreme_breakouts_with_reliability (now : ℚ) (mgr : PivotState)
    (current_price : ℚ) : List Threshold → Option BreakoutInfo × PivotState
  | [] => (none, mgr)
  | t :: rest =>
    if is_threshold_reliable mgr t.nom = false then
      check_extreme_breakouts_with_reliability now mgr current_price rest
    else if startswith t.nom "R2" then
      if t.valeur + BREAKOUT_AMPLITUDE < current_price then
        (some ⟨"resistance", t, current_price - t.valeur, "bullish"⟩,
         track_breakout_attempt now mgr t.nom)
      else check_extreme_breakouts_with_reliability now mgr current_price rest
    else if startswith t.nom "S2" then
      if current_price < t.valeur - BREAKOUT_AMPLITUDE then
        (some ⟨"support", t, t.valeur - current_price, "bearish"⟩,
         track_breakout_attempt now mgr t.nom)
      else check_extreme_breakouts_with_reliability now mgr current_price rest
    else check_extreme_breakouts_with_reliability now mgr current_price rest

/-- `BreakoutValidator._start_stabilization_tracking` (455–463). -/
def start_stabilization_tracking (now : ℚ) (v : ValidatorState)
    (threshold_name : String) (price : ℚ) (breakout : BreakoutInfo) : ValidatorState :=
  { v with stabilization_tracker :=
      setAssoc v.stabilization_tracker threshold_name ⟨now, price, breakout, [⟨price, now⟩]⟩ }

/-- `BreakoutValidator._process_extreme_breakout` (345–381). -/
def process_extreme_breakout (now : ℚ) (w : World) (breakout : BreakoutInfo)
    (current_price : ℚ) : Option Signal × World :=
  let threshold_name := breakout.threshold.nom
  let sp := if breakout.btype = "resistance" then
      check_speed_breakout now w.mgr breakout.threshold.valeur current_price
    else (false, w.mgr)
  let is_fast := sp.1
  let v := start_stabilization_tracking now w.val threshold_name current_price breakout
  let mgr := set_breakout_state now sp.2 .PARTIAL
    [("seuil_en_cours", threshold_name), ("is_fast", toString is_fast)]
  (some { stype := "Cassure " ++ threshold_name ++ " [En validation...]",
          direction := breakout.direction, status := "partial",
          threshold_name := some threshold_name,
          broken_threshold := some breakout.threshold.valeur,
          amplitude := some breakout.amplitude, is_fast := some is_fast },
   ⟨mgr, v⟩)

/-- `BreakoutValidator._check_tension_zones` (383–421): for each R2/S2 level
within $1.00 of the price, record a touch; if the phase is then TENSION,
emit a tension signal. -/
def check_tension_zones (now : ℚ) (mgr : PivotState) (current_price : ℚ) :
    List Threshold → Option Signal × PivotState
  | [] => (none, mgr)
  | t :: rest =>
    if startswith t.nom "R2" then
      if |current_price - t.valeur| ≤ 1 then
        let mgr := start_tension_tracking now mgr t.nom current_price
        if mgr.etat_cassure = .TENSION then
          (some { stype := "🚧📈 Tension sur " ++ t.nom, direction := "bullish_tension",
                  status := "tension", threshold_name := some t.nom,
                  distance := some (t.valeur - current_price) }, mgr)
        else check_tension_zones now mgr current_price rest
      else check_tension_zones now mgr current_price rest
    else if startswith t.nom "S2" then
      if |current_price - t.valeur| ≤ 1 then
        let mgr := start_tension_tracking now mgr t.nom current_price
        if mgr.etat_cassure = .TENSION then
          (some { stype := "🚧📉 Tension sur " ++ t.nom, direction := "bearish_tension",
                  status := "tension", threshold_name := some t.nom,
                  distance := some (current_price - t.valeur) }, mgr)
        else check_tension_zones now mgr current_price rest
      else check_tension_zones now mgr current_price rest
    else check_tension_zones now mgr current_price rest

/-- `BreakoutValidator._check_breakout_invalidation` (423–453). -/
def check_breakout_invalidation (now : ℚ) (mgr : PivotState) (current_price : ℚ)
    (thresholds : List Threshold) : PivotState :=
  if mgr.etat_cassure ≠ .PARTIAL ∧ mgr.etat_cassure ≠ .VALIDATED then mgr
  else
    let r1_value := find_level_value "R1" thresholds
    let s1_value := find_level_value "S1" thresholds
    if truthy r1_value ∧ truthy s1_value ∧
        s1_value.getD 0 ≤ current_price ∧ current_price ≤ r1_value.getD 0 then
      let mgr := set_breakout_state now mgr .INVALIDATED [("raison", "retour_range_central")]
      if should_go_neutral now mgr then
        set_breakout_state now mgr .NEUTRAL [("raison", "trop_invalidations")]
      else mgr
    else mgr

/-- Inner loop of `BreakoutValidator._count_consecutive_direction`
(560–578). -/
def countConsecAux (direction : String) : List ℚ → ℚ → ℕ → ℕ → ℕ
  | [], _, _, best => best
  | p :: rest, prev, cur, best =>
    if (direction = "bullish" ∧ prev ≤ p) ∨ (direction = "bearish" ∧ p ≤ prev) then
      countConsecAux direction rest p (cur + 1) (max best (cur + 1))
    else countConsecAux direction rest p 0 best

/-- `BreakoutValidator._count_consecutive_direction` (560–578). -/
def count_consecutive_direction (prices : List ℚ) (direction : String) : ℕ :=
  match prices with
  | [] => 0
  | [_] => 0
  | p :: rest => countConsecAux direction rest p 0 0

/-- `BreakoutValidator._evaluate_stabilization_with_context` (65–157):
`some` means the breakout validated (the caller drops the tracker and keeps
the returned manager state); `none` means keep tracking. -/
def evaluate_stabilization_with_context (now : ℚ) (hour : ℕ) (mgr : PivotState)
    (threshold_name : String) (tracker : StabTracker) (stabilization_time : ℚ) :
    Option (Signal × PivotState) :=
  let time_elapsed := now - tracker.start_time
  if time_elapsed < stabilization_time then none
  else
    let recent_prices := ((tracker.price_points.filter
      fun p => now - p.timestamp ≤ stabilization_time).map fun p => p.price)
    if recent_prices.length < 3 then none
    else
      let profile := get_current_session_profile hour
      let stabilization_range := if profile.activity = "high" then STABILIZATION_RANGE * 1.5
        else if profile.activity = "low" then STABILIZATION_RANGE * 0.8
        else STABILIZATION_RANGE
      let mx := pyMax recent_prices
      let mn := pyMin recent_prices
      if stabilization_range * 2 < mx - mn then none
      else
        let broken_threshold := tracker.breakout_info.threshold.valeur
        let start_price := tracker.start_price
        let max_allowed_return := start_price - (start_price - broken_threshold) * 0.5
        if tracker.breakout_info.direction = "bullish" ∧ mn < max_allowed_return then none
        else if tracker.breakout_info.direction = "bearish" ∧ max_allowed_return < mx then none
        else
          let min_consecutive : ℕ := if profile.activity = "high" then 2
            else if profile.activity = "low" then 4 else 3
          if count_consecutive_direction recent_prices tracker.breakout_info.direction
              < min_consecutive then none
          else
            let mgr := set_breakout_state now mgr .VALIDATED
              [("seuil_valide", threshold_name)]
            let mgr := track_breakout_result now mgr threshold_name true
            some ({ stype := "Cassure " ++ threshold_name ++ " ✅ VALIDÉE",
                    direction := tracker.breakout_info.direction, status := "validated",
                    threshold_name := some threshold_name,
                    broken_threshold := some broken_threshold,
                    amplitude := some tracker.breakout_info.amplitude,
                    confidence_modifier := some (get_breakout_confidence_modifier hour) },
                  mgr)

/-- `BreakoutValidator._check_stabilization_with_context` (32–63) followed
by `_cleanup_stabilization_trackers` (580–591): walk the trackers in order,
appending the current price and pruning old points, collect the first
validated result (validated trackers are dropped), then discard trackers
older than 30 minutes. -/
def check_stabilization_with_context (now : ℚ) (hour : ℕ) (w : World)
    (current_price : ℚ) : Option Signal × World :=
  let adapted := get_adapted_stabilization_time hour
  let r := w.val.stabilization_tracker.foldl
    (fun (acc : List (String × StabTracker) × Option Signal × PivotState) kv =>
      let tracker := kv.2
      let points := (tracker.price_points ++ [⟨current_price, now⟩]).filter
        fun p => now - (adapted + 10) < p.timestamp
      let tracker := { tracker with price_points := points }
      match evaluate_stabilization_with_context now hour acc.2.2 kv.1 tracker adapted with
      | some (sig, mgr') =>
        (acc.1, (if acc.2.1 = none then some sig else acc.2.1), mgr')
      | none => (acc.1 ++ [(kv.1, tracker)], acc.2.1, acc.2.2))
    ([], none, w.mgr)
  let kept := r.1.filter fun kv => ¬(kv.2.start_time < now - 30)
  (r.2.1, ⟨r.2.2, { w.val with stabilization_tracker := kept }⟩)

/-- `BreakoutValidator.check_breakout`, richer session-aware version
(breakout_validator.py 1–30): per-tick evaluation in the order
range-return, extreme breakout, tension, invalidation, stabilization, the
first produced signal short-circuiting the rest. -/
def check_breakout (now : ℚ) (hour : ℕ) (w : World) (current_price : ℚ)
    (thresholds : List Threshold) : Option Signal × World :=
  let w : World := { w with val := add_price_point now w.val current_price }
  let rr := check_range_return_validator now w current_price thresholds
  match rr.1 with
  | some sig => (some sig, rr.2)
  | none =>
    let w := rr.2
    let eb := check_extreme_breakouts_with_reliability now w.mgr current_price thresholds
    let w : World := { w with mgr := eb.2 }
    match eb.1 with
    | some breakout => process_extreme_breakout now w breakout current_price
    | none =>
      let tz := check_tension_zones now w.mgr current_price thresholds
      let w : World := { w with mgr := tz.2 }
      match tz.1 with
      | some sig => (some sig, w)
      | none =>
        let mgr := check_breakout_invalidation now w.mgr current_price thresholds
        let w : World := { w with mgr := mgr }
        check_stabilization_with_context now hour w current_price

/-- `EnhancedSignalDetector.detect_signals` (enhanced_signal_detector.py
23–62), steps 2–5, with the active thresholds already resolved: abort with
no signal when none are cached; run the volatility gate, forcing phase
NEUTRAL when it trips; in NEUTRAL emit only the blocked signal; otherwise
delegate to the validator.  Step 1 (scheduled pivot computation) and steps
6–7 (pivot switching and enrichment) sit outside the verified claims. -/
def detect_signals_core (now : ℚ) (hour : ℕ) (w : World) (current_price : ℚ)
    (active_thresholds : List Threshold) : Option Signal × World :=
  if active_thresholds.isEmpty then (none, w)
  else
    let mgr := if check_volatility now hour w.val ∧ w.mgr.etat_cassure ≠ .NEUTRAL then
        set_breakout_state now w.mgr .NEUTRAL [("raison", "volatilite_excessive")]
      else w.mgr
    if mgr.etat_cassure = .NEUTRAL then
      (some { stype := "🚫 Mode NEUTRE - Marché trop erratique", direction := "neutral",
              status := "blocked" }, ⟨mgr, w.val⟩)
    else
      check_breakout now hour ⟨mgr, w.val⟩ current_price active_thresholds

/-- `PivotStateManager._create_default_state` (61–84), restricted to the
fields carried by `PivotState`. -/
def create_default_state (today : ℤ) : PivotState :=
  { pivot_actif := .CLASSIC
    etat_cassure := .NONE
    date := today
    switches_count := 0
    touches_tension := []
    historique := []
    seuil_stats := []
    in_range_since := none
    last_range_check := none
    timestamp_premier_touch_r1 := none }

/-- Harness for the daily-budget claim: run a sequence of switch requests on
one fixed day and count the successes. -/
def run_switches (now : ℚ) (today : ℤ) :
    PivotState → List (PivotType × String) → ℕ × PivotState
  | st, [] => (0, st)
  | st, req :: rest =>
    let r := switch_to_pivot now today st req.1 req.2
    let rr := run_switches now today r.2 rest
    ((if r.1 then 1 else 0) + rr.1, rr.2)

/-! ## Theorems -/

lemma round2_is_centi (q : ℚ) : ∃ n : ℤ, round2 q = (n : ℚ) / 100 :=
  ⟨rhe (100 * q), rfl⟩

/-- **C2** (amended: the input must be a well-formed bar, `low ≤ close ≤
high`, not merely `high ≥ low`).  The pivot equals
`round((H+L+C)/3, 2)`, the seven published levels are exactly the rounded
floor-trader formulas computed from the rounded pivot, every level is an
exact multiple of 0.01, the ordering `S1 ≤ Pivot ≤ R1` holds, and the
spec's example H=2000, L=1980, C=1990 yields
Pivot=1990.0, R1=2000.0, S1=1980.0. -/
theorem pivot_arithmetic_bounds (high low close : ℚ) (pt : PivotType)
    (h1 : low ≤ close) (h2 : close ≤ high) :
    round2 (2 * round2 ((high + low + close) / 3) - high) ≤
      round2 ((high + low + close) / 3) ∧
    round2 ((high + low + close) / 3) ≤
      round2 (2 * round2 ((high + low + close) / 3) - low) ∧
    (calculate_pivot_points ⟨some high, some low, some close⟩ pt).map Threshold.valeur =
      [round2 (high + 2 * (round2 ((high + low + close) / 3) - low)),
       round2 (round2 ((high + low + close) / 3) + (high - low)),
       round2 (2 * round2 ((high + low + close) / 3) - low),
       round2 ((high + low + close) / 3),
       round2 (2 * round2 ((high + low + close) / 3) - high),
       round2 (round2 ((high + low + close) / 3) - (high - low)),
       round2 (low - 2 * (high - round2 ((high + low + close) / 3)))] ∧
    (∀ t ∈ calculate_pivot_points ⟨some high, some low, some close⟩ pt,
      ∃ n : ℤ, t.valeur = (n : ℚ) / 100) ∧
    (calculate_pivot_points ⟨some 2000, some 1980, some 1990⟩ pt).map Threshold.valeur =
      [2020, 2010, 2000, 1990, 1980, 1970, 1960] := by
  have hlh : low ≤ high := le_trans h1 h2
  refine ⟨?_, ?_, ?_, ?_, ?_⟩
  · have key : rhe (2 * (rhe (100 * ((high + low + close) / 3)) : ℚ) - 100 * high) ≤
        rhe (100 * ((high + low + close) / 3)) :=
      rhe_le_pivot (by linarith)
    simp only [round2]
    have harg : (100 : ℚ) * (2 * ((rhe (100 * ((high + low + close) / 3)) : ℚ) / 100) - high) =
        2 * (rhe (100 * ((high + low + close) / 3)) : ℚ) - 100 * high := by ring
    rw [harg, div_le_div_iff_of_pos_right (by norm_num : (0 : ℚ) < 100)]
    exact_mod_cast key
  · have key : rhe (100 * ((high + low + close) / 3)) ≤
        rhe (2 * (rhe (100 * ((high + low + close) / 3)) : ℚ) - 100 * low) :=
      rhe_ge_pivot (by linarith)
    simp only [round2]
    have harg : (100 : ℚ) * (2 * ((rhe (100 * ((high + low + close) / 3)) : ℚ) / 100) - low) =
        2 * (rhe (100 * ((high + low + close) / 3)) : ℚ) - 100 * low := by ring
    rw [harg, div_le_div_iff_of_pos_right (by norm_num : (0 : ℚ) < 100)]
    exact_mod_cast key
  · rfl
  · intro t ht
    simp only [calculate_pivot_points, List.mem_cons, List.not_mem_nil, or_false] at ht
    rcases ht with h | h | h | h | h | h | h <;> rw [h] <;> exact round2_is_centi _
  · cases pt <;>
      simp only [calculate_pivot_points, List.map_cons, List.map_nil] <;>
      norm_num [round2, rhe, round_eq]

/-- **C2 counterexample**: with only `high ≥ low` required, the input
H=2000, L=1980, C=0 produces R1 = 673.34 strictly below Pivot = 1326.67,
so `Pivot ≤ R1` fails. -/
theorem pivot_arithmetic_cex :
    ((1980 : ℚ) ≤ 2000) ∧
    (calculate_pivot_points ⟨some 2000, some 1980, some 0⟩ PivotType.CLASSIC).map
      Threshold.valeur =
      [34667 / 50, 134667 / 100, 33667 / 50, 132667 / 100, 32667 / 50,
       130667 / 100, 31667 / 50] ∧
    ¬((132667 : ℚ) / 100 ≤ 33667 / 50) := by
  refine ⟨by norm_num, ?_, by norm_num⟩
  simp only [calculate_pivot_points, List.map_cons, List.map_nil]
  norm_num [round2, rhe, round_eq]

/-- **C2 witness**: the bound theorem applied to the spec's own example
bar. -/
theorem pivot_arithmetic_bounds_witness :
    round2 ((2000 + 1980 + 1990 : ℚ) / 3) ≤
      round2 (2 * round2 ((2000 + 1980 + 1990 : ℚ) / 3) - 1980) :=
  (pivot_arithmetic_bounds 2000 1980 1990 PivotType.CLASSIC (by norm_num)
    (by norm_num)).2.1

/-- **C3** (amended): the calculator returns the empty list exactly when one
of high/low/close is missing; every returned list has 0 or 7 levels — a
partial level set is never produced — and the caller caches exactly what
was returned (nothing on a failed fetch). -/
theorem pivot_empty_iff_missing :
    ∀ (data : SessionOHLC) (pt : PivotType),
    (calculate_pivot_points data pt = [] ↔
      data.high = none ∨ data.low = none ∨ data.close = none) ∧
    ((calculate_pivot_points data pt).length = 0 ∨
      (calculate_pivot_points data pt).length = 7) ∧
    (∀ (cache : PivotType → Option (List Threshold)),
      (calculate_session_pivots cache pt (some data)).2 pt =
        some (calculate_pivot_points data pt) ∧
      (calculate_session_pivots cache pt none).2 = cache) := by
  intro data pt
  obtain ⟨h, l, c⟩ := data
  cases h <;> cases l <;> cases c <;>
    simp [calculate_pivot_points, calculate_session_pivots]

/-- **C3 counterexample**: an inverted bar (high=1980 < low=2000) is not
rejected — the calculator still returns a full 7-level list. -/
theorem pivot_inverted_input_cex :
    ((1980 : ℚ) < 2000) ∧
    (calculate_pivot_points ⟨some 1980, some 2000, some 1990⟩ PivotType.CLASSIC).length = 7 := by
  decide

@[simp] lemma add_to_history_date (now : ℚ) (st : PivotState) (e : String)
    (d : List (String × String)) : (add_to_history now st e d).date = st.date := by
  simp [add_to_history]

@[simp] lemma add_to_history_switches (now : ℚ) (st : PivotState) (e : String)
    (d : List (String × String)) :
    (add_to_history now st e d).switches_count = st.switches_count := by
  simp [add_to_history]

@[simp] lemma add_to_history_etat (now : ℚ) (st : PivotState) (e : String)
    (d : List (String × String)) :
    (add_to_history now st e d).etat_cassure = st.etat_cassure := by
  simp [add_to_history]

@[simp] lemma add_to_history_pivot_actif (now : ℚ) (st : PivotState) (e : String)
    (d : List (String × String)) :
    (add_to_history now st e d).pivot_actif = st.pivot_actif := by
  simp [add_to_history]

@[simp] lemma add_to_history_seuil_stats (now : ℚ) (st : PivotState) (e : String)
    (d : List (String × String)) :
    (add_to_history now st e d).seuil_stats = st.seuil_stats := by
  simp [add_to_history]

@[simp] lemma add_to_history_touches (now : ℚ) (st : PivotState) (e : String)
    (d : List (String × String)) :
    (add_to_history now st e d).touches_tension = st.touches_tension := by
  simp [add_to_history]

@[simp] lemma add_to_history_in_range_since (now : ℚ) (st : PivotState) (e : String)
    (d : List (String × String)) :
    (add_to_history now st e d).in_range_since = st.in_range_since := by
  simp [add_to_history]

lemma getLast?_add_to_history (now : ℚ) (st : PivotState) (e : String)
    (d : List (String × String)) :
    (add_to_history now st e d).historique.getLast? = some ⟨now, e, d⟩ := by
  unfold add_to_history
  dsimp only
  split_ifs with h
  · rw [List.drop_append_of_le_length, List.getLast?_concat]
    simp only [List.length_append, List.length_cons, List.length_nil] at h ⊢
    omega
  · exact List.getLast?_concat _

lemma lookup_setAssoc {α : Type} (m : List (String × α)) (k : String) (v : α) :
    (setAssoc m k v).lookup k = some v := by
  induction m with
  | nil => simp [setAssoc, List.lookup]
  | cons hd tl ih =>
    obtain ⟨k', v'⟩ := hd
    by_cases h : k' = k
    · simp [setAssoc, h, List.lookup]
    · have hne : (k == k') = false := beq_eq_false_iff_ne.2 (Ne.symm h)
      simp [setAssoc, h, List.lookup, hne, ih]

lemma switch_to_pivot_fail (now : ℚ) (today : ℤ) (st : PivotState) (p : PivotType)
    (r : String) (hd : st.date = today) (hc : MAX_DAILY_SWITCHES ≤ st.switches_count) :
    switch_to_pivot now today st p r = (false, st) := by
  unfold switch_to_pivot can_switch_pivot
  simp [hd, Nat.not_lt.2 hc]

lemma switch_to_pivot_success (now : ℚ) (today : ℤ) (st : PivotState) (p : PivotType)
    (r : String) (hd : st.date = today) (hc : st.switches_count < MAX_DAILY_SWITCHES) :
    switch_to_pivot now today st p r =
      (true, add_to_history now
        { st with
          pivot_actif := p
          switches_count := st.switches_count + 1
          etat_cassure := .NONE } "pivot_switch"
        [("from", st.pivot_actif.value), ("to", p.value), ("reason", r)]) := by
  unfold switch_to_pivot can_switch_pivot
  simp [hd, hc]

lemma switch_to_pivot_date (now : ℚ) (today : ℤ) (st : PivotState) (p : PivotType)
    (r : String) (hd : st.date = today) :
    (switch_to_pivot now today st p r).2.date = today := by
  rcases Nat.lt_or_ge st.switches_count MAX_DAILY_SWITCHES with hc | hc
  · rw [switch_to_pivot_success now today st p r hd hc]
    simpa using hd
  · rw [switch_to_pivot_fail now today st p r hd hc]
    exact hd

lemma run_switches_le (now : ℚ) (today : ℤ) (reqs : List (PivotType × String)) :
    ∀ st : PivotState, st.date = today →
    (run_switches now today st reqs).1 ≤ MAX_DAILY_SWITCHES - st.switches_count := by
  induction reqs with
  | nil =>
    intro st _
    simp [run_switches]
  | cons req rest ih =>
    intro st h
    rcases Nat.lt_or_ge st.switches_count MAX_DAILY_SWITCHES with hc | hc
    · have hs := switch_to_pivot_success now today st req.1 req.2 h hc
      have hd2 : (add_to_history now
          { st with
            pivot_actif := req.1
            switches_count := st.switches_count + 1
            etat_cassure := .NONE } "pivot_switch"
          [("from", st.pivot_actif.value), ("to", req.1.value),
           ("reason", req.2)]).date = today := by simpa using h
      have hbound := ih _ hd2
      simp only [add_to_history_switches] at hbound
      simp only [run_switches, hs, if_pos]
      omega
    · have hs := switch_to_pivot_fail now today st req.1 req.2 h hc
      have hbound := ih st h
      simp only [run_switches, hs, Bool.false_eq_true, if_false]
      omega

/-- **C1**: on a fixed UTC day the switch budget is hard: once the counter
has reached `MAX_DAILY_SWITCHES = 2`, `switch_to_pivot` returns `false`
and leaves the state (active pivot, counter, phase, everything) untouched;
a successful switch returns `true`, increments the counter, activates the
target pivot, resets the breakout phase to NONE and appends a
`pivot_switch` history entry; and any same-day sequence of attempts gains
at most `2 − initial counter` successes. -/
theorem switch_daily_budget :
    (∀ (now : ℚ) (today : ℤ) (st : PivotState) (p : PivotType) (r : String),
      st.date = today → MAX_DAILY_SWITCHES ≤ st.switches_count →
      switch_to_pivot now today st p r = (false, st)) ∧
    (∀ (now : ℚ) (today : ℤ) (st : PivotState) (p : PivotType) (r : String),
      st.date = today → st.switches_count < MAX_DAILY_SWITCHES →
      (switch_to_pivot now today st p r).1 = true ∧
      (switch_to_pivot now today st p r).2.switches_count = st.switches_count + 1 ∧
      (switch_to_pivot now today st p r).2.etat_cassure = BreakoutState.NONE ∧
      (switch_to_pivot now today st p r).2.pivot_actif = p ∧
      (switch_to_pivot now today st p r).2.historique.getLast? =
        some ⟨now, "pivot_switch",
          [("from", st.pivot_actif.value), ("to", p.value), ("reason", r)]⟩) ∧
    (∀ (now : ℚ) (today : ℤ) (st : PivotState) (reqs : List (PivotType × String)),
      st.date = today →
      (run_switches now today st reqs).1 ≤ MAX_DAILY_SWITCHES - st.switches_count) := by
  refine ⟨switch_to_pivot_fail, ?_, fun now today st reqs h => run_switches_le now today reqs st h⟩
  intro now today st p r hd hc
  rw [switch_to_pivot_success now today st p r hd hc]
  refine ⟨rfl, by simp, by simp, by simp, ?_⟩
  exact getLast?_add_to_history _ _ _ _

/-- **C1 witness**: from a fresh default state, one switch succeeds with all
the stated effects, and a run of three same-day attempts scores at most
two successes. -/
theorem switch_daily_budget_witness :
    (switch_to_pivot 0 0 (create_default_state 0) PivotType.ASIA "test").1 = true ∧
    (run_switches 0 0 (create_default_state 0)
      [(PivotType.ASIA, "a"), (PivotType.EUROPE, "b"), (PivotType.CLASSIC, "c")]).1 ≤ 2 := by
  refine ⟨(switch_daily_budget.2.1 0 0 (create_default_state 0) PivotType.ASIA "test" rfl
    (by norm_num [create_default_state, MAX_DAILY_SWITCHES])).1, ?_⟩
  have h := switch_daily_budget.2.2 0 0 (create_default_state 0)
    [(PivotType.ASIA, "a"), (PivotType.EUROPE, "b"), (PivotType.CLASSIC, "c")] rfl
  simpa [MAX_DAILY_SWITCHES, create_default_state] using h

/-- **C4**: after recording a result for a tracked level the stored score is
`round(validated/attempts*100, 1)` (recording a success counts the new
validation); `is_threshold_reliable` gives the benefit of the doubt below
`min_attempts` recorded attempts, including unknown levels, whose stats
read as 0 attempts / score 0.0; at or above `min_attempts` it holds
exactly when `score ≥ min_score`; and the spec example — 3 attempts, 2
validated — scores 66.7. -/
theorem reliability_score_and_gate :
    (∀ (now : ℚ) (st : PivotState) (tn : String) (success : Bool) (stats : SeuilStats),
      st.seuil_stats.lookup tn = some stats → 0 < stats.tentatives →
      (get_threshold_reliability (track_breakout_result now st tn success) tn).score =
        round1 (((stats.validees + if success then 1 else 0 : ℕ) : ℚ) /
          (stats.tentatives : ℚ) * 100)) ∧
    (∀ (st : PivotState) (tn : String) (ma : ℕ) (ms : ℚ),
      (get_threshold_reliability st tn).tentatives < ma →
      is_threshold_reliable st tn ma ms = true) ∧
    (∀ (st : PivotState) (tn : String) (ma : ℕ) (ms : ℚ),
      ma ≤ (get_threshold_reliability st tn).tentatives →
      (is_threshold_reliable st tn ma ms = true ↔
        ms ≤ (get_threshold_reliability st tn).score)) ∧
    (∀ (st : PivotState) (tn : String), st.seuil_stats.lookup tn = none →
      get_threshold_reliability st tn = emptyStats) ∧
    (get_threshold_reliability
      (track_breakout_result 0
        { create_default_state 0 with
          seuil_stats := [("R2_classique", ⟨3, 1, 1, 0, none⟩)] }
        "R2_classique" true) "R2_classique").score = 667 / 10 := by
  refine ⟨?_, ?_, ?_, ?_, ?_⟩
  · intro now st tn success stats h hpos
    unfold track_breakout_result
    rw [h]
    cases success <;>
      simp [get_threshold_reliability, lookup_setAssoc, hpos]
  · intro st tn ma ms h
    simp [is_threshold_reliable, h]
  · intro st tn ma ms h
    simp [is_threshold_reliable, Nat.not_lt.2 h]
  · intro st tn h
    simp [get_threshold_reliability, h]
  · norm_num [track_breakout_result, get_threshold_reliability, create_default_state,
      List.lookup, setAssoc, add_to_history, round1, rhe, round_eq]

/-- **C4 witness**: the score formula applied to the tracked level
"R2_classique" with 3 attempts and a second success recorded, and the gate
evaluated on an unknown level. -/
theorem reliability_score_and_gate_witness :
    (get_threshold_reliability
      (track_breakout_result 0
        { create_default_state 0 with
          seuil_stats := [("R2_classique", ⟨3, 1, 1, 0, none⟩)] }
        "R2_classique" true) "R2_classique").score =
      round1 (((1 + if true then 1 else 0 : ℕ) : ℚ) / ((3 : ℕ) : ℚ) * 100) ∧
    is_threshold_reliable (create_default_state 0) "S2_classique" 3 50 = true := by
  constructor
  · exact reliability_score_and_gate.1 0
      { create_default_state 0 with
        seuil_stats := [("R2_classique", ⟨3, 1, 1, 0, none⟩)] }
      "R2_classique" true ⟨3, 1, 1, 0, none⟩ rfl (by norm_num)
  · exact reliability_score_and_gate.2.1 (create_default_state 0) "S2_classique" 3 50
      (by norm_num [get_threshold_reliability, create_default_state, List.lookup, emptyStats])

/-- **C10**: recording a breakout result for a level that has no recorded
attempt is a pure no-op — the call returns (after a warning log) with the
whole state, including the reliability map, unchanged. -/
theorem track_result_untracked_noop (now : ℚ) (st : PivotState)
    (threshold_name : String) (success : Bool)
    (h : st.seuil_stats.lookup threshold_name = none) :
    track_breakout_result now st threshold_name success = st := by
  unfold track_breakout_result
  rw [h]

/-- **C10 witness**: the no-op on the fresh default state. -/
theorem track_result_untracked_noop_witness :
    track_breakout_result 0 (create_default_state 0) "R2_classique" true =
      create_default_state 0 :=
  track_result_untracked_noop 0 (create_default_state 0) "R2_classique" true rfl

@[simp] lemma set_breakout_state_etat (now : ℚ) (st : PivotState) (s : BreakoutState)
    (d : List (String × String)) : (set_breakout_state now st s d).etat_cassure = s := by
  simp [set_breakout_state]

@[simp] lemma set_breakout_state_touches (now : ℚ) (st : PivotState) (s : BreakoutState)
    (d : List (String × String)) :
    (set_breakout_state now st s d).touches_tension = st.touches_tension := by
  simp [set_breakout_state]

@[simp] lemma set_breakout_state_seuil_stats (now : ℚ) (st : PivotState) (s : BreakoutState)
    (d : List (String × String)) :
    (set_breakout_state now st s d).seuil_stats = st.seuil_stats := by
  simp [set_breakout_state]

@[simp] lemma set_breakout_state_in_range_since (now : ℚ) (st : PivotState)
    (s : BreakoutState) (d : List (String × String)) :
    (set_breakout_state now st s d).in_range_since = st.in_range_since := by
  simp [set_breakout_state]

/-- **C5** (amended: the escalation is not guarded by the current phase —
it fires from any phase, not only NONE).  `start_tension_tracking` first
drops touches older than the rolling 30-minute window, so expired touches
never count; the phase becomes TENSION exactly when the retained touches of
the same level (the fresh one included) number at least 3, and is left
untouched otherwise; every retained touch is within the window; and the
validator records a touch only for R2/S2 levels within $1.00 of the
price — a tick farther than $1.00 from every R2/S2 level leaves the store
unchanged. -/
theorem tension_escalation :
    (∀ (now : ℚ) (st : PivotState) (tn : String) (price : ℚ),
      (TENSION_TOUCHES ≤
          (((st.touches_tension.filter fun t => now - TENSION_WINDOW < t.timestamp) ++
            ([⟨now, tn, price⟩] : List Touch)).filter fun t => t.threshold = tn).length →
        (start_tension_tracking now st tn price).etat_cassure = BreakoutState.TENSION) ∧
      ((((st.touches_tension.filter fun t => now - TENSION_WINDOW < t.timestamp) ++
            ([⟨now, tn, price⟩] : List Touch)).filter
              fun t => t.threshold = tn).length < TENSION_TOUCHES →
        (start_tension_tracking now st tn price).etat_cassure = st.etat_cassure) ∧
      (∀ t ∈ (start_tension_tracking now st tn price).touches_tension,
        now - TENSION_WINDOW < t.timestamp)) ∧
    (∀ (now : ℚ) (mgr : PivotState) (price : ℚ) (ths : List Threshold),
      (∀ t ∈ ths, (startswith t.nom "R2" ∨ startswith t.nom "S2") →
        1 < |price - t.valeur|) →
      check_tension_zones now mgr price ths = (none, mgr)) := by
  constructor
  · intro now st tn price
    refine ⟨?_, ?_, ?_⟩
    · intro h
      simp only [start_tension_tracking]
      rw [if_pos h]
      simp
    · intro h
      simp only [start_tension_tracking]
      rw [if_neg (by omega)]
    · intro t ht
      simp only [start_tension_tracking] at ht
      split_ifs at ht with h <;>
        simp only [add_to_history_touches, set_breakout_state_touches] at ht <;>
        rcases List.mem_append.1 ht with hin | hin
      · exact of_decide_eq_true (List.mem_filter.1 hin).2
      · simp only [List.mem_singleton] at hin
        rw [hin]
        norm_num [TENSION_WINDOW]
      · exact of_decide_eq_true (List.mem_filter.1 hin).2
      · simp only [List.mem_singleton] at hin
        rw [hin]
        norm_num [TENSION_WINDOW]
  · intro now mgr price ths hfar
    induction ths with
    | nil => rfl
    | cons t rest ih =>
      have hnext := fun u hu => hfar u (List.mem_cons_of_mem t hu)
      unfold check_tension_zones
      by_cases h1 : startswith t.nom "R2"
      · have hgt := hfar t (List.mem_cons_self t rest) (Or.inl h1)
        rw [if_pos h1, if_neg (by push_neg; linarith), ih hnext]
      · rw [if_neg h1]
        by_cases h2 : startswith t.nom "S2"
        · have hgt := hfar t (List.mem_cons_self t rest) (Or.inr h2)
          rw [if_pos h2, if_neg (by push_neg; linarith), ih hnext]
        · rw [if_neg h2, ih hnext]

/-- Concrete state for the C5 counterexample: phase PARTIAL with two recent
touches of R2. -/
def stPartialCex : PivotState :=
  { pivot_actif := .CLASSIC
    etat_cassure := .PARTIAL
    date := 0
    switches_count := 0
    touches_tension := [⟨100, "R2_classique", 2439⟩, ⟨110, "R2_classique", 2440⟩]
    historique := []
    seuil_stats := []
    in_range_since := none
    last_range_check := none
    timestamp_premier_touch_r1 := none }

/-- **C5 counterexample**: a third in-window touch escalates to TENSION from
phase PARTIAL, so the transition does not start only from NONE. -/
theorem tension_from_partial_cex :
    stPartialCex.etat_cassure = BreakoutState.PARTIAL ∧
    (start_tension_tracking 115 stPartialCex "R2_classique" 2440).etat_cassure =
      BreakoutState.TENSION := by
  refine ⟨rfl, ?_⟩
  norm_num [start_tension_tracking, stPartialCex, TENSION_WINDOW, TENSION_TOUCHES,
    set_breakout_state, add_to_history]

/-- **C5 witness**: the escalation threshold applied to the same concrete
third touch, and the $1 guard applied to a far-away price. -/
theorem tension_escalation_witness :
    (start_tension_tracking 115 stPartialCex "R2_classique" 2440).etat_cassure =
      BreakoutState.TENSION ∧
    check_tension_zones 0 (create_default_state 0) 100
      [⟨2000, "résistance", "R2_classique", "classique"⟩] =
      (none, create_default_state 0) := by
  constructor
  · exact (tension_escalation.1 115 stPartialCex "R2_classique" 2440).1 (by
      norm_num [stPartialCex, TENSION_WINDOW, TENSION_TOUCHES, List.filter])
  · exact tension_escalation.2 0 (create_default_state 0) 100
      [⟨2000, "résistance", "R2_classique", "classique"⟩] (by
        intro t ht
        simp only [List.mem_singleton] at ht
        rw [ht]
        norm_num)

/-- **C6** (amended: once the contiguous stay has lasted 30 minutes the
check returns true on *every* subsequent in-range tick — the tracked start
is not cleared on firing, so it does not trigger exactly once).
`check_range_return` fires exactly when the price is inside `[s1, r1]` and
the recorded stay start is at least 30 minutes old; firing leaves the
state unchanged; an out-of-range price resets the stay start to null and
never fires; and the first in-range tick only records the start. -/
theorem range_return_spec :
    (∀ (now : ℚ) (st : PivotState) (price r1 s1 : ℚ), r1 ≠ 0 → s1 ≠ 0 →
      ((check_range_return now st price (some r1) (some s1)).1 = true ↔
        (s1 ≤ price ∧ price ≤ r1 ∧
          ∃ t0, st.in_range_since = some t0 ∧ 30 ≤ now - t0))) ∧
    (∀ (now : ℚ) (st : PivotState) (price r1 s1 : ℚ), r1 ≠ 0 → s1 ≠ 0 →
      (check_range_return now st price (some r1) (some s1)).1 = true →
      (check_range_return now st price (some r1) (some s1)).2 = st) ∧
    (∀ (now : ℚ) (st : PivotState) (price r1 s1 : ℚ), r1 ≠ 0 → s1 ≠ 0 →
      ¬(s1 ≤ price ∧ price ≤ r1) →
      (check_range_return now st price (some r1) (some s1)).2.in_range_since = none ∧
      (check_range_return now st price (some r1) (some s1)).1 = false) ∧
    (∀ (now : ℚ) (st : PivotState) (price r1 s1 : ℚ), r1 ≠ 0 → s1 ≠ 0 →
      s1 ≤ price → price ≤ r1 → st.in_range_since = none →
      (check_range_return now st price (some r1) (some s1)).2.in_range_since = some now ∧
      (check_range_return now st price (some r1) (some s1)).1 = false) := by
  have htr : ∀ r1 s1 : ℚ, r1 ≠ 0 → s1 ≠ 0 →
      (!truthy (some r1) || !truthy (some s1)) = false := by
    intro r1 s1 hr hs
    simp [truthy, hr, hs]
  refine ⟨?_, ?_, ?_, ?_⟩
  · intro now st price r1 s1 hr hs
    unfold check_range_return
    simp only [htr r1 s1 hr hs, Bool.false_eq_true, if_false, Option.getD_some]
    by_cases hin : s1 ≤ price ∧ price ≤ r1
    · rw [if_pos hin]
      cases hsince : st.in_range_since with
      | none => simp [hin]
      | some t0 =>
        by_cases hdur : 30 ≤ now - t0
        · simp [hin, hdur]
        · simp [hin, hdur]
    · rw [if_neg hin]
      refine ⟨fun h => absurd h (by simp), fun h => absurd ⟨h.1, h.2.1⟩ hin⟩
  · intro now st price r1 s1 hr hs hfire
    unfold check_range_return at hfire ⊢
    simp only [htr r1 s1 hr hs, Bool.false_eq_true, if_false, Option.getD_some] at hfire ⊢
    by_cases hin : s1 ≤ price ∧ price ≤ r1
    · rw [if_pos hin] at hfire ⊢
      cases hsince : st.in_range_since with
      | none =>
        rw [hsince] at hfire
        simp at hfire
      | some t0 =>
        rw [hsince] at hfire
        by_cases hdur : 30 ≤ now - t0
        · simp [hdur]
        · simp [hdur] at hfire
    · rw [if_neg hin] at hfire
      simp at hfire
  · intro now st price r1 s1 hr hs hout
    unfold check_range_return
    simp only [htr r1 s1 hr hs, Bool.false_eq_true, if_false, Option.getD_some]
    rw [if_neg hout]
    exact ⟨rfl, rfl⟩
  · intro now st price r1 s1 hr hs h1 h2 hsince
    unfold check_range_return
    simp only [htr r1 s1 hr hs, Bool.false_eq_true, if_false, Option.getD_some]
    rw [if_pos ⟨h1, h2⟩, hsince]
    exact ⟨rfl, rfl⟩

/-- Concrete state for the C6 counterexample: in range since minute 0. -/
def stRangeCex : PivotState :=
  { create_default_state 0 with in_range_since := some 0 }

/-- **C6 counterexample**: with the stay started at minute 0, the check
fires at minute 31 and fires *again* at minute 32 during the same
uninterrupted stay — not exactly once. -/
theorem range_return_fires_twice_cex :
    (check_range_return 31 stRangeCex 1990 (some 2000) (some 1980)).1 = true ∧
    (check_range_return 32
      (check_range_return 31 stRangeCex 1990 (some 2000) (some 1980)).2
      1990 (some 2000) (some 1980)).1 = true := by
  norm_num [check_range_return, truthy, stRangeCex, create_default_state]

/-- **C6 witness**: the characterisation applied at minute 31 of the
concrete stay (fires, state unchanged), at minute 29 price leaving the
range (reset, no fire), and a first in-range tick (start recorded, no
fire). -/
theorem range_return_spec_witness :
    (check_range_return 31 stRangeCex 1990 (some 2000) (some 1980)).1 = true ∧
    (check_range_return 31 stRangeCex 1990 (some 2000) (some 1980)).2 = stRangeCex ∧
    (check_range_return 29 stRangeCex 5000 (some 2000) (some 1980)).2.in_range_since =
      none ∧
    (check_range_return 5 (create_default_state 0) 1990
      (some 2000) (some 1980)).2.in_range_since = some 5 := by
  refine ⟨?_, ?_, ?_, ?_⟩
  · exact (range_return_spec.1 31 stRangeCex 1990 2000 1980 (by norm_num)
      (by norm_num)).2 ⟨by norm_num, by norm_num, 0, rfl, by norm_num⟩
  · exact range_return_spec.2.1 31 stRangeCex 1990 2000 1980 (by norm_num) (by norm_num)
      ((range_return_spec.1 31 stRangeCex 1990 2000 1980 (by norm_num)
        (by norm_num)).2 ⟨by norm_num, by norm_num, 0, rfl, by norm_num⟩)
  · exact (range_return_spec.2.2.1 29 stRangeCex 5000 2000 1980 (by norm_num)
      (by norm_num) (by norm_num)).1
  · exact (range_return_spec.2.2.2 5 (create_default_state 0) 1990 2000 1980
      (by norm_num) (by norm_num) (by norm_num) (by norm_num) rfl).1

lemma is_range_included_iff (a b c d : ℚ) :
    is_range_included a b c d = true ↔
      (a - b < (c - d) * 0.8 ∧ |(a + b) / 2 - (c + d) / 2| < (c - d) * 0.3) := by
  unfold is_range_included
  dsimp only
  split_ifs with h
  · simp [h]
  · simp [h]

/-- **C9** (amended: the "nested range" rejection compares the center
offset against 30% of the *full* old range width `R2 − S2`, i.e. 60% of
the half-width, not 30% of the half-width; and "narrower" is strict,
`new < 0.8·old`).  Given both level sets cached and carrying R2/S2/Pivot,
the switch is accepted iff some difference on R2, S2 or Pivot is ≥ $5 and
the new range is not nested: nested meaning strictly more than 20%
narrower with center offset < 30% of the old full width. -/
theorem pivot_switch_materiality :
    ∀ (cache : PivotType → Option (List Threshold)) (npt cpt : PivotType)
      (nr2 ns2 np cr2 cs2 cp : ℚ),
    listTruthy (cache npt) = true → listTruthy (cache cpt) = true →
    extract_key_levels ((cache npt).getD []) = ⟨some nr2, some ns2, some np⟩ →
    extract_key_levels ((cache cpt).getD []) = ⟨some cr2, some cs2, some cp⟩ →
    ((∃ msg, is_pivot_switch_meaningful cache npt cpt = some (true, msg)) ↔
      (5 ≤ max (max |nr2 - cr2| |ns2 - cs2|) |np - cp| ∧
        ¬(nr2 - ns2 < (cr2 - cs2) * 0.8 ∧
          |(nr2 + ns2) / 2 - (cr2 + cs2) / 2| < (cr2 - cs2) * 0.3))) ∧
    (is_pivot_switch_meaningful cache npt cpt).isSome = true := by
  intro cache npt cpt nr2 ns2 np cr2 cs2 cp h1 h2 hn hc
  unfold is_pivot_switch_meaningful
  simp only [h1, h2, hn, hc, Bool.not_true, Bool.or_self, Bool.false_eq_true, if_false]
  by_cases hmax : max (max |nr2 - cr2| |ns2 - cs2|) |np - cp| < 5
  · rw [if_pos hmax]
    constructor
    · constructor
      · rintro ⟨msg, hmsg⟩
        simp at hmsg
      · rintro ⟨hge, -⟩
        exact absurd hmax (not_lt.2 hge)
    · rfl
  · rw [if_neg hmax]
    by_cases hinc : is_range_included nr2 ns2 cr2 cs2 = true
    · rw [if_pos hinc]
      constructor
      · constructor
        · rintro ⟨msg, hmsg⟩
          simp at hmsg
        · rintro ⟨-, hnot⟩
          exact absurd ((is_range_included_iff nr2 ns2 cr2 cs2).1 hinc) hnot
      · rfl
    · rw [if_neg hinc]
      constructor
      · constructor
        · intro _
          refine ⟨not_lt.1 hmax, fun hcond => hinc ?_⟩
          exact (is_range_included_iff nr2 ns2 cr2 cs2).2 hcond
        · intro _
          exact ⟨"Bascule justifiée", rfl⟩
      · rfl

/-- Current (classic) level set for the C9 counterexample. -/
def cexCurrent : List Threshold :=
  [⟨100, "résistance", "R2_classique", "classique"⟩,
   ⟨50, "pivot", "Pivot_classique", "classique"⟩,
   ⟨0, "support", "S2_classique", "classique"⟩]

/-- Incoming (asia) level set for the C9 counterexample. -/
def cexNew : List Threshold :=
  [⟨105, "résistance", "R2_asie", "asie"⟩,
   ⟨70, "pivot", "Pivot_asie", "asie"⟩,
   ⟨35, "support", "S2_asie", "asie"⟩]

/-- Pivot cache holding the two C9 counterexample level sets. -/
def cexCache : PivotType → Option (List Threshold)
  | .ASIA => some cexNew
  | .CLASSIC => some cexCurrent
  | .EUROPE => none

/-- **C9 counterexample**: new range [35,105] vs old [0,100]: the R2
difference is $5 (so the $5 test passes) and the new center is 20 away
from the old center — more than 30% of the old half-width (15), so the
claim as stated accepts the switch; the code still rejects it because 20
is within 30% of the full width (30). -/
theorem pivot_switch_materiality_cex :
    (is_pivot_switch_meaningful cexCache PivotType.ASIA PivotType.CLASSIC).map Prod.fst =
      some false ∧
    (5 : ℚ) ≤ |(105 : ℚ) - 100| ∧
    (105 - 35 : ℚ) < ((100 : ℚ) - 0) * 0.8 ∧
    ¬(|((105 : ℚ) + 35) / 2 - ((100 : ℚ) + 0) / 2| < (((100 : ℚ) - 0) / 2) * 0.3) := by
  have ht1 : listTruthy (cexCache PivotType.ASIA) = true := rfl
  have ht2 : listTruthy (cexCache PivotType.CLASSIC) = true := rfl
  have hn : extract_key_levels ((cexCache PivotType.ASIA).getD []) =
      ⟨some 105, some 35, some 70⟩ := rfl
  have hc : extract_key_levels ((cexCache PivotType.CLASSIC).getD []) =
      ⟨some 100, some 0, some 50⟩ := rfl
  refine ⟨?_, by norm_num, by norm_num, by norm_num⟩
  unfold is_pivot_switch_meaningful
  simp only [ht1, ht2, hn, hc, Bool.not_true, Bool.or_self, Bool.false_eq_true, if_false]
  norm_num [is_range_included]

/-- **C9 witness**: the materiality characterisation applied to the
concrete counterexample caches. -/
theorem pivot_switch_materiality_witness :
    ((∃ msg, is_pivot_switch_meaningful cexCache PivotType.ASIA PivotType.CLASSIC =
        some (true, msg)) ↔
      (5 ≤ max (max |(105 : ℚ) - 100| |(35 : ℚ) - 0|) |(70 : ℚ) - 50| ∧
        ¬((105 : ℚ) - 35 < ((100 : ℚ) - 0) * 0.8 ∧
          |((105 : ℚ) + 35) / 2 - ((100 : ℚ) + 0) / 2| < ((100 : ℚ) - 0) * 0.3))) ∧
    (is_pivot_switch_meaningful cexCache PivotType.ASIA PivotType.CLASSIC).isSome = true :=
  pivot_switch_materiality cexCache PivotType.ASIA PivotType.CLASSIC
    105 35 70 100 0 50 rfl rfl rfl rfl

@[simp] lemma add_price_point_tracker (now : ℚ) (v : ValidatorState) (price : ℚ) :
    (add_price_point now v price).stabilization_tracker = v.stabilization_tracker := by
  simp [add_price_point]

/-- **C8** (amended: the gate only engages once the buffer holds at least 10
points with at least 5 inside the trailing hour; below that it stays
silent even when the ratio exceeds the threshold).  `check_volatility`
returns true exactly when those sample minima hold and
`(max−min)/average·100` over the trailing-hour slice of the validator's
own buffer exceeds the session-adapted threshold; whenever it returns
true, the orchestrator forces phase NEUTRAL (when not already there),
emits only the blocked signal, and never consults the breakout validator
that tick — the validator buffers stay untouched. -/
theorem volatility_gate :
    (∀ (now : ℚ) (hour : ℕ) (v : ValidatorState),
      check_volatility now hour v = true ↔
        (10 ≤ v.price_history.length ∧
         5 ≤ ((v.price_history.filter fun p => now - 60 < p.timestamp).map
            fun p => p.price).length ∧
         get_adapted_volatility_threshold hour <
           (pyMax ((v.price_history.filter fun p => now - 60 < p.timestamp).map
              fun p => p.price) -
            pyMin ((v.price_history.filter fun p => now - 60 < p.timestamp).map
              fun p => p.price)) /
           (((v.price_history.filter fun p => now - 60 < p.timestamp).map
              fun p => p.price).sum /
            ((v.price_history.filter fun p => now - 60 < p.timestamp).map
              fun p => p.price).length) * 100)) ∧
    (∀ (now : ℚ) (hour : ℕ) (w : World) (price : ℚ) (ths : List Threshold),
      ths ≠ [] → check_volatility now hour w.val = true →
      (detect_signals_core now hour w price ths).1 =
        some { stype := "🚫 Mode NEUTRE - Marché trop erratique", direction := "neutral",
               status := "blocked" } ∧
      (detect_signals_core now hour w price ths).2.val = w.val ∧
      (detect_signals_core now hour w price ths).2.mgr.etat_cassure =
        BreakoutState.NEUTRAL ∧
      (detect_signals_core now hour w price ths).2.mgr =
        (if w.mgr.etat_cassure ≠ BreakoutState.NEUTRAL then
          set_breakout_state now w.mgr .NEUTRAL [("raison", "volatilite_excessive")]
        else w.mgr)) := by
  constructor
  · intro now hour v
    unfold check_volatility
    dsimp only
    split_ifs with h1 h2
    · simp only [Bool.false_eq_true, false_iff]
      rintro ⟨h, -, -⟩
      omega
    · simp only [Bool.false_eq_true, false_iff]
      rintro ⟨-, h, -⟩
      omega
    · simp only [decide_eq_true_eq]
      constructor
      · intro h
        exact ⟨by omega, by omega, h⟩
      · rintro ⟨-, -, h⟩
        exact h
  · intro now hour w price ths hne hvol
    have hemp : ths.isEmpty = false := by
      cases ths with
      | nil => exact absurd rfl hne
      | cons a l => rfl
    unfold detect_signals_core
    by_cases hn : w.mgr.etat_cassure = BreakoutState.NEUTRAL
    · simp [hemp, hvol, hn]
    · simp [hemp, hvol, hn]

/-- A 9-point buffer with wildly swinging prices for the C8
counterexample. -/
def vHist9 : ValidatorState :=
  ⟨[⟨1000, 1⟩, ⟨2000, 2⟩, ⟨1000, 3⟩, ⟨2000, 4⟩, ⟨1000, 5⟩, ⟨2000, 6⟩, ⟨1000, 7⟩,
    ⟨2000, 8⟩, ⟨1000, 9⟩], []⟩

/-- **C8 counterexample**: with only 9 buffered points the trailing-hour
ratio (≈69%) far exceeds the adapted threshold (1.0 for the Europe
session), yet `check_volatility` returns false — the gate does not simply
compare the ratio against the threshold as claimed. -/
theorem volatility_gate_cex :
    check_volatility 10 5 vHist9 = false ∧
    get_adapted_volatility_threshold 5 <
      (pyMax ((vHist9.price_history.filter fun p => (10 : ℚ) - 60 < p.timestamp).map
          fun p => p.price) -
       pyMin ((vHist9.price_history.filter fun p => (10 : ℚ) - 60 < p.timestamp).map
          fun p => p.price)) /
      (((vHist9.price_history.filter fun p => (10 : ℚ) - 60 < p.timestamp).map
          fun p => p.price).sum /
       ((vHist9.price_history.filter fun p => (10 : ℚ) - 60 < p.timestamp).map
          fun p => p.price).length) * 100 := by
  have hth : get_adapted_volatility_threshold 5 = 1 := rfl
  constructor
  · norm_num [check_volatility, vHist9]
  · rw [hth]
    norm_num [vHist9, pyMax, pyMin]

/-- A 10-point swinging buffer that does trip the gate, for the C8
witness. -/
def vHist10 : ValidatorState :=
  ⟨[⟨1000, 1⟩, ⟨2000, 2⟩, ⟨1000, 3⟩, ⟨2000, 4⟩, ⟨1000, 5⟩, ⟨2000, 6⟩, ⟨1000, 7⟩,
    ⟨2000, 8⟩, ⟨1000, 9⟩, ⟨2000, 10⟩], []⟩

/-- **C8 witness**: with 10 buffered points the gate trips, and the
orchestrator emits the blocked signal with phase forced to NEUTRAL and the
validator untouched. -/
theorem volatility_gate_witness :
    (detect_signals_core 11 5 ⟨create_default_state 0, vHist10⟩ 1500
      [⟨2000, "résistance", "R2_classique", "classique"⟩]).1 =
      some { stype := "🚫 Mode NEUTRE - Marché trop erratique", direction := "neutral",
             status := "blocked" } ∧
    (detect_signals_core 11 5 ⟨create_default_state 0, vHist10⟩ 1500
      [⟨2000, "résistance", "R2_classique", "classique"⟩]).2.mgr.etat_cassure =
      BreakoutState.NEUTRAL ∧
    (detect_signals_core 11 5 ⟨create_default_state 0, vHist10⟩ 1500
      [⟨2000, "résistance", "R2_classique", "classique"⟩]).2.val = vHist10 := by
  have h := volatility_gate.2 11 5 ⟨create_default_state 0, vHist10⟩ 1500
    [⟨2000, "résistance", "R2_classique", "classique"⟩] (by simp)
    (by
      rw [volatility_gate.1 11 5 vHist10]
      have hth : get_adapted_volatility_threshold 5 = 1 := rfl
      rw [hth]
      refine ⟨by norm_num [vHist10], ?_, ?_⟩ <;>
        norm_num [vHist10, pyMax, pyMin])
  exact ⟨h.1, h.2.2.1, h.2.1⟩

lemma check_range_return_fired (now : ℚ) (st : PivotState) (price : ℚ)
    (r1v s1v : Option ℚ) (h : (check_range_return now st price r1v s1v).1 = true) :
    (check_range_return now st price r1v s1v).2 = st := by
  unfold check_range_return at h ⊢
  by_cases ht : (!truthy r1v || !truthy s1v) = true
  · rw [if_pos ht] at h
    simp at h
  · rw [if_neg ht] at h ⊢
    by_cases hin : s1v.getD 0 ≤ price ∧ price ≤ r1v.getD 0
    · rw [if_pos hin] at h ⊢
      cases hsince : st.in_range_since with
      | none =>
        rw [hsince] at h
        simp at h
      | some t0 =>
        rw [hsince] at h
        by_cases hdur : 30 ≤ now - t0
        · simp [hdur]
        · simp [hdur] at h
    · rw [if_neg hin] at h
      simp at h

lemma check_range_return_validator_some (now : ℚ) (w : World) (price : ℚ)
    (ths : List Threshold) (sig : Signal)
    (h : (check_range_return_validator now w price ths).1 = some sig) :
    sig = { stype := "🔄 Retour durable en range S1-R1 - Revalidation pivot recommandée",
            direction := "range_return", status := "semi_neutral" } ∧
    (check_range_return_validator now w price ths).2 =
      ⟨set_breakout_state now w.mgr .NEUTRAL
        [("raison", "retour_durable_range"), ("duree_minutes", "30"),
         ("suggestion", "revalidation_pivot_precedent")], w.val⟩ := by
  obtain ⟨mgr, val⟩ := w
  unfold check_range_return_validator at h ⊢
  dsimp only at h ⊢
  by_cases hres : (check_range_return now mgr price (find_level_value "R1" ths)
      (find_level_value "S1" ths)).1 = true
  · have hst := check_range_return_fired now mgr price _ _ hres
    rw [if_pos hres] at h ⊢
    refine ⟨(Option.some.inj h).symm, ?_⟩
    rw [hst]
  · rw [if_neg hres] at h
    simp at h

/-- **C7**: in the richer per-tick evaluation the sustained range-return
check runs first: whenever it fires, `check_breakout` returns the
revalidate-pivot signal (status "semi_neutral"), the phase is forced to
NEUTRAL, and none of the later steps run — the tension touches,
reliability stats and stabilization trackers are exactly as before the
tick (only the price point was buffered). -/
theorem breakout_range_return_first :
    ∀ (now : ℚ) (hour : ℕ) (w : World) (price : ℚ) (ths : List Threshold) (sig : Signal),
    (check_range_return_validator now ⟨w.mgr, add_price_point now w.val price⟩
      price ths).1 = some sig →
    check_breakout now hour w price ths =
      (some sig, ⟨set_breakout_state now w.mgr .NEUTRAL
        [("raison", "retour_durable_range"), ("duree_minutes", "30"),
         ("suggestion", "revalidation_pivot_precedent")],
        add_price_point now w.val price⟩) ∧
    sig.status = "semi_neutral" ∧
    sig.direction = "range_return" ∧
    (check_breakout now hour w price ths).2.mgr.etat_cassure = BreakoutState.NEUTRAL ∧
    (check_breakout now hour w price ths).2.mgr.touches_tension =
      w.mgr.touches_tension ∧
    (check_breakout now hour w price ths).2.mgr.seuil_stats = w.mgr.seuil_stats ∧
    (check_breakout now hour w price ths).2.val.stabilization_tracker =
      w.val.stabilization_tracker := by
  intro now hour w price ths sig h
  obtain ⟨mgr, val⟩ := w
  obtain ⟨hsig, hst⟩ := check_range_return_validator_some now
    ⟨mgr, add_price_point now val price⟩ price ths sig h
  have hmain : check_breakout now hour ⟨mgr, val⟩ price ths =

      (some sig, ⟨set_breakout_state now mgr .NEUTRAL
        [("raison", "retour_durable_range"), ("duree_minutes", "30"),
         ("suggestion", "revalidation_pivot_precedent")],
        add_price_point now val price⟩) := by
    unfold check_breakout
    dsimp only
    rw [h]
    rw [hst]
  refine ⟨hmain, by rw [hsig], by rw [hsig], ?_, ?_, ?_, ?_⟩ <;> rw [hmain] <;> simp

/-- Threshold list (R1/S1 only) for the C7 witness. -/
def thsC7 : List Threshold :=
  [⟨2000, "résistance", "R1_classique", "classique"⟩,
   ⟨1980, "support", "S1_classique", "classique"⟩]

/-- **C7 witness**: a concrete tick 31 minutes into an in-range stay
short-circuits the whole evaluation into the range-return signal with
phase NEUTRAL. -/
theorem breakout_range_return_first_witness :
    (check_breakout 31 5 ⟨stRangeCex, ⟨[], []⟩⟩ 1990 thsC7).1 =
      some { stype := "🔄 Retour durable en range S1-R1 - Revalidation pivot recommandée",
             direction := "range_return", status := "semi_neutral" } ∧
    (check_breakout 31 5 ⟨stRangeCex, ⟨[], []⟩⟩ 1990 thsC7).2.mgr.etat_cassure =
      BreakoutState.NEUTRAL := by
  have hfr : find_level_value "R1" thsC7 = some 2000 := rfl
  have hfs : find_level_value "S1" thsC7 = some 1980 := rfl
  have h := breakout_range_return_first 31 5 ⟨stRangeCex, ⟨[], []⟩⟩ 1990 thsC7
    { stype := "🔄 Retour durable en range S1-R1 - Revalidation pivot recommandée",
      direction := "range_return", status := "semi_neutral" }
    (by
      unfold check_range_return_validator
      dsimp only
      rw [hfr, hfs]
      norm_num [check_range_return, truthy, stRangeCex, create_default_state])
  exact ⟨by rw [h.1], h.2.2.2.1⟩

end SniperGold
